import Mathlib

/-!
Shallow embedding of the research-agent application (src/app.py) and proofs
of the specification claims about it.

Conventions of the embedding:
* Python dicts produced by the search backend are modelled as structures;
  fields the code reads with `dict.get(k, default)` are `Option`s, fields the
  code reads with `dict[k]` are mandatory.
* The single HTTP request issued by `ResearchAgent.search_tavily` is modelled
  by an `HttpOutcome` value supplied by the environment: either a parsed
  JSON response or a `requests.exceptions.RequestException` (which also
  covers `raise_for_status`).  A whole interaction with the backend is a
  function `Nat → HttpOutcome` giving the outcome the backend would produce
  on the n-th request the code might make.
* Python floats (relevance scores) are modelled as rationals.
* `datetime.now()` is I/O, so the timestamp is an explicit `now : String`
  parameter of `synthesize`.
* A Python call that raises an uncaught exception is modelled by `Option`:
  `none` is an uncaught exception (e.g. `ZeroDivisionError`).
-/

set_option autoImplicit false

namespace ResearchAgent

/-- A normalized search result as built by `search_tavily` (a Python dict
with keys `title`, `href`, `body`, `source`, and optionally `score` and
`published_date`; a key that may be absent from the dict is an `Option`). -/
structure SearchResult where
  title : String
  href : String
  body : String
  source : String
  score : Option ℚ
  published_date : Option String
deriving DecidableEq, Repr

/-- One entry of the `results` array of a parsed Tavily JSON response.
`title`, `url`, `content` are read with `result[...]` (mandatory);
`domain`, `score`, `published_date` are read with `result.get(...)`. -/
structure RawResult where
  title : String
  url : String
  content : String
  domain : Option String
  score : Option ℚ
  published_date : Option String
deriving DecidableEq, Repr

/-- A parsed Tavily JSON response: an optional AI `answer` and the organic
`results` array (`data.get("results", [])`). -/
structure TavilyResponse where
  answer : Option String
  results : List RawResult
deriving DecidableEq, Repr

/-- Outcome of one HTTP request to the backend: a parsed response, or a
`requests.exceptions.RequestException` (network error, timeout, or a
non-2xx status via `raise_for_status`). -/
inductive HttpOutcome where
  | ok (resp : TavilyResponse)
  | err
deriving DecidableEq, Repr

/-- Observable side effects of the search code: an HTTP POST for a query, or
a `time.sleep` of some number of time units. -/
inductive SearchEvent where
  | httpCall (query : String)
  | sleep (units : Nat)
deriving DecidableEq, Repr

/-- Python truthiness of `data.get("answer")`: `None` and the empty string
are falsy. -/
def answerTruthy : Option String → Bool
  | none => false
  | some s => !(s == "")

/-- The "AI Synthesis" result `search_tavily` builds from a truthy
`data["answer"]` (note: the dict has no `published_date` key). -/
def aiResult (answer : String) : SearchResult :=
  { title := "AI Synthesis"
    href := "https://tavily.com"
    body := answer
    source := "Tavily AI"
    score := some 1
    published_date := none }

/-- Normalization of one organic Tavily result, as in the `for result in
data.get("results", [])` loop of `search_tavily`. -/
def normalizeRaw (r : RawResult) : SearchResult :=
  { title := r.title
    href := r.url
    body := r.content
    source := r.domain.getD "Web"
    score := some (r.score.getD 0)
    published_date := some (r.published_date.getD "Unknown") }

/-- The full result list `search_tavily` builds from a parsed response: the
AI answer (when truthy) first, then the normalized organic results. -/
def normalizeResponse (resp : TavilyResponse) : List SearchResult :=
  (if answerTruthy resp.answer then [aiResult (resp.answer.getD "")] else [])
    ++ resp.results.map normalizeRaw

/-- `ResearchAgent.search_tavily` (src/app.py:31-90): with a missing/empty
API key it reports an error and returns `[]` without any request; otherwise
it issues exactly one HTTP POST and either normalizes the parsed response
or, on a `RequestException`, reports the error and returns `[]`. -/
def search_tavily (apiKey : String) (outcome : HttpOutcome) : List SearchResult :=
  if apiKey = "" then []
  else
    match outcome with
    | .ok resp => normalizeResponse resp
    | .err => []

/-- `search_tavily` run against a backend able to answer any number of
requests (`backend n` is the outcome the n-th request would get), paired
with the trace of side effects the code performs.  The function body makes
a single `requests.post` call (consuming `backend 0`) and contains no
`time.sleep`, so the event trace is at most one `httpCall`. -/
def search_tavily_run (apiKey query : String) (backend : Nat → HttpOutcome) :
    List SearchResult × List SearchEvent :=
  (search_tavily apiKey (backend 0),
   if apiKey = "" then [] else [SearchEvent.httpCall query])

/-- The delays, in time units, of the sleep events of a trace. -/
def sleepDelays (es : List SearchEvent) : List Nat :=
  es.filterMap fun e =>
    match e with
    | .sleep n => some n
    | .httpCall _ => none

/-- Total time slept across a trace. -/
def totalSleep (es : List SearchEvent) : Nat := (sleepDelays es).sum

/-- Number of HTTP requests in a trace. -/
def httpAttempts (es : List SearchEvent) : Nat :=
  (es.filter fun e =>
    match e with
    | .httpCall _ => true
    | .sleep _ => false).length

/-- The result list one attempt of the primary backend produces (an erroring
attempt produces no results). -/
def attemptResults (o : HttpOutcome) : List SearchResult :=
  match o with
  | .ok resp => normalizeResponse resp
  | .err => []

/-- Modelled from the spec: the `search_with_fallback` operation of spec
section 4.2, which is absent from the code.  It tries the primary backend up
to 3 times, returns the first non-empty result set with
`used_fallback = false`, and after 3 empty attempts returns the fallback
provider results with `used_fallback = true`. -/
def search_with_fallback_spec (backend : Nat → HttpOutcome)
    (fallback : List SearchResult) : List SearchResult × Bool :=
  if !(attemptResults (backend 0)).isEmpty then (attemptResults (backend 0), false)
  else if !(attemptResults (backend 1)).isEmpty then (attemptResults (backend 1), false)
  else if !(attemptResults (backend 2)).isEmpty then (attemptResults (backend 2), false)
  else (fallback, true)

/-- Modelled from the spec: the backoff delays of spec section 4.2, sleep
2^attempt units after each of the 3 failed attempts (attempts 0,1,2). -/
def spec_backoff_delays : List Nat := [2 ^ 0, 2 ^ 1, 2 ^ 2]

/-- `ResearchAgent.plan_research` (src/app.py:92-102): five template-filled
question strings, truncated to the first four. -/
def plan_research (query : String) : List String :=
  ([ "What is " ++ query ++ "? Definition and fundamentals",
     "Latest developments and news about " ++ query ++ " in 2024",
     "Key experts, companies, or research institutions working on " ++ query,
     "Future implications and challenges of " ++ query,
     "Data, statistics, and market analysis regarding " ++ query ]).take 4

/-- Python `int()` truncation toward zero of a rational. -/
def pyInt (q : ℚ) : Int :=
  if q < 0 then q.ceil else q.floor

/-- Python string repetition `s * n` for a single character (a negative
count yields the empty string, matching Python). -/
def charRepeat (c : Char) (n : Int) : String :=
  String.mk (List.replicate n.toNat c)

/-- The relevance bar of `synthesize`: green circles for
`int(score * 5)`, white circles for the remaining `5 - int(score * 5)`. -/
def scoreBar (score : ℚ) : String :=
  charRepeat '🟢' (pyInt (score * 5)) ++ charRepeat '⚪' (5 - pyInt (score * 5))

/-- Python `f"\x7bscore:.2f\x7d"` on the rational model of the score:
two-decimal fixed-point rendering (rounding half away from zero, a detail
the claims never exercise). -/
def fmt2 (q : ℚ) : String :=
  let c : Int := if q < 0 then -((-q * 100 + 1/2).floor) else (q * 100 + 1/2).floor
  let n := c.natAbs
  (if c < 0 then "-" else "")
    ++ toString (n / 100) ++ "."
    ++ (if n % 100 < 10 then "0" else "") ++ toString (n % 100)

/-- One result block of a report section (the body of the
`for r in related` loop of `synthesize`). -/
def renderResult (r : SearchResult) : String :=
  let score := r.score.getD 0
  let date := r.published_date.getD ""
  let dateStr := if date ≠ "" then " | 📅 " ++ date else ""
  "### [" ++ r.title ++ "](" ++ r.href ++ ")\n"
    ++ "**Relevance:** " ++ scoreBar score ++ " (" ++ fmt2 score ++ ")" ++ dateStr ++ "  \n"
    ++ "**Source:** " ++ r.source ++ "  \n"
    ++ r.body.take 300 ++ "...\n\n"

/-- The chunk size of `synthesize`:
`max(1, len(all_results) // len(sub_questions))`. -/
def chunk_size (numResults numSubQuestions : Nat) : Nat :=
  max 1 (numResults / numSubQuestions)

/-- The slice of results `synthesize` assigns to the section of index `idx`
(0-based): `all_results[start : start + chunk_size + 1]` with
`start = idx * chunk_size`. -/
def sectionRelated {α : Type} (cs : Nat) (results : List α) (idx : Nat) : List α :=
  (results.drop (idx * cs)).take (cs + 1)

/-- The literal placeholder `synthesize` emits for a section whose slice is
empty. -/
def noSourcesPlaceholder : String := "*No specific sources found for this angle.*\n\n"

/-- The section heading line of `synthesize` for the (0-based) section
index `idx` and its question. -/
def sectionHeading (idx : Nat) (question : String) : String :=
  "\n## " ++ toString (idx + 1) ++ ". " ++ question ++ "\n\n"

/-- One full report section of `synthesize`: the heading, then either every
related result rendered in order, or the no-sources placeholder. -/
def renderSection (cs : Nat) (results : List SearchResult)
    (idx : Nat) (question : String) : String :=
  let related := sectionRelated cs results idx
  sectionHeading idx question
    ++ (if related.isEmpty then noSourcesPlaceholder
        else String.join (related.map renderResult))

/-- The report header of `synthesize` up to (excluding) the embedded
timestamp. -/
def reportHeaderPre (query : String) : String :=
  "# Research Report: " ++ query ++ "\n**Generated:** "

/-- The report header of `synthesize` after the embedded timestamp. -/
def reportHeaderPost (totalSources highQuality : Nat) : String :=
  "  \n**Sources Analyzed:** " ++ toString totalSources
    ++ " (High relevance: " ++ toString highQuality ++ ")\n\n---\n\n"

/-- The static methodology footer of `synthesize`. -/
def methodologyFooter : String :=
  "\n---\n## Research Methodology\nThis report was generated using:\n"
    ++ "- **Tavily AI Search API**: Advanced neural search with real-time web indexing\n"
    ++ "- **Multi-angle Analysis**: Parallel queries targeting different aspects of the topic\n"
    ++ "- **Relevance Scoring**: AI-ranked results by content quality and semantic relevance\n"
    ++ "- **Source Verification**: Cross-referenced publication dates and domain authority\n\n"
    ++ "*Research Agent v2.0 | Powered by Tavily AI*\n"

/-- `ResearchAgent.synthesize` (src/app.py:104-153).  `now` is the
`datetime.now().strftime(...)` timestamp (I/O, hence a parameter).  With an
empty `sub_questions` list the Python code raises `ZeroDivisionError` in
the chunk-size computation, modelled as `none`. -/
def synthesize (now query : String) (sub_questions : List String)
    (all_results : List SearchResult) : Option String :=
  if sub_questions.isEmpty then none
  else
    let total_sources := all_results.length
    let high_quality :=
      (all_results.filter fun r => decide ((0.8 : ℚ) < r.score.getD 0)).length
    let cs := chunk_size all_results.length sub_questions.length
    some (reportHeaderPre query ++ now ++ reportHeaderPost total_sources high_quality
      ++ String.join (sub_questions.enum.map fun iq => renderSection cs all_results iq.1 iq.2)
      ++ methodologyFooter)

/-- `check_api_key` (src/app.py:155-174): `False` (after showing the
configuration error) exactly when the key is missing/empty. -/
def check_api_key (key : String) : Bool := !(key == "")

/-- The sub-questions `main` actually consumes: it searches
`sub_questions[:research_breadth]` and passes the same slice to
`synthesize` (src/app.py:260, 290-294). -/
def consumed_sub_questions (query : String) (research_breadth : Nat) : List String :=
  (plan_research query).take research_breadth

/-- Observable outcome of one user-triggered run of `main`. -/
structure RunOutcome where
  searchCalls : Nat
  report : Option String
  configErrorShown : Bool
deriving DecidableEq, Repr

/-- The run logic of `main` (src/app.py:176-296), stripped of presentation:
the API-key gate (`st.stop()` on a missing key, before any search), the
empty-query guard, the search loop over the consumed sub-questions
(`backend i` is the HTTP outcome of the request for sub-question `i`; the
key is non-empty here so each iteration performs exactly one request), the
all-searches-failed guard, and the synthesis call. -/
def run_main (now key query : String) (research_breadth : Nat)
    (backend : Nat → HttpOutcome) : RunOutcome :=
  if !(check_api_key key) then
    { searchCalls := 0, report := none, configErrorShown := true }
  else if query = "" then
    { searchCalls := 0, report := none, configErrorShown := false }
  else
    let sq := consumed_sub_questions query research_breadth
    let all_results := (sq.enum.map fun iq => search_tavily key (backend iq.1)).flatten
    if all_results.isEmpty then
      { searchCalls := sq.length, report := none, configErrorShown := false }
    else
      { searchCalls := sq.length
        report := synthesize now query sq all_results
        configErrorShown := false }

/-- A backend interaction whose first request errors and whose later
requests would succeed with one organic result (used to exhibit the absence
of any retry in `search_tavily`). -/
def retryProbeBackend : Nat → HttpOutcome := fun n =>
  if n = 0 then HttpOutcome.err
  else HttpOutcome.ok
    { answer := none
      results := [{ title := "Result", url := "https://example.com", content := "c",
                    domain := none, score := none, published_date := none }] }

/-- Ten pairwise-distinct search results, result `j` titled `toString j`,
used to trace the chunk assignment of `synthesize` on 10 results. -/
def chunkProbeResult (j : Nat) : SearchResult :=
  { title := toString j, href := "", body := "", source := "",
    score := none, published_date := none }

/-- The list of the ten probe results, in positional order. -/
def chunkProbeResults : List SearchResult := (List.range 10).map chunkProbeResult

/-- The four section slices `synthesize` computes for 4 sub-questions and
the 10 probe results, via its `chunk_size` and `sectionRelated`. -/
def chunkProbeSections : List (List SearchResult) :=
  (List.range 4).map fun i =>
    sectionRelated (chunk_size chunkProbeResults.length 4) chunkProbeResults i

/-- A single concrete organic raw result, used to instantiate the AI-answer
prepending property. -/
def answerProbeRaw : RawResult :=
  { title := "T", url := "https://example.org", content := "c",
    domain := none, score := none, published_date := none }

end ResearchAgent

open ResearchAgent

/-- C1 counterexample: on a run where the first request errors but the
primary backend would return a non-empty result set on the next attempt,
the claim requires the search operation to return that non-empty result set
with used_fallback = false; the code makes no second attempt and returns
the empty list (and returns no fallback flag at all). -/
theorem c1_counterexample :
    (search_tavily_run "key" "q" retryProbeBackend).1 = [] ∧
    (search_with_fallback_spec retryProbeBackend []).2 = false ∧
    (search_with_fallback_spec retryProbeBackend []).1 ≠ [] := by
  decide

/-- C1 (amended): `search_tavily` makes at most one attempt and has no
fallback path: its output depends only on the outcome of the first request
(so no retry can ever occur), an erroring attempt yields the empty list,
and the trace contains at most one HTTP call.  No used_fallback flag exists
in its return type. -/
theorem c1_amended_single_attempt (key query : String) (backend : Nat → HttpOutcome) :
    search_tavily_run key query backend
      = search_tavily_run key query (fun _ => backend 0) ∧
    search_tavily key HttpOutcome.err = [] ∧
    httpAttempts (search_tavily_run key query backend).2 ≤ 1 := by
  refine ⟨rfl, ?_, ?_⟩
  · by_cases hk : key = "" <;> simp [search_tavily, hk]
  · by_cases hk : key = "" <;> simp [search_tavily_run, httpAttempts, hk]

/-- C2 counterexample: with 4 sub-questions and the 10 pairwise-distinct
probe results, the result at index 9 appears in no section slice (it is
lost) and the result at index 2 appears in two section slices (it is
duplicated), refuting "every result in exactly one section slice". -/
theorem c2_counterexample :
    (chunkProbeSections.map fun s => s.count (chunkProbeResult 9)).sum = 0 ∧
    (chunkProbeSections.map fun s => s.count (chunkProbeResult 2)).sum = 2 := by
  decide

/-- C2 (amended): with 4 sub-questions and 10 results the chunk size is 2
and section i (0-based) receives the slice of indices 2i, 2i+1, 2i+2 of the
results; consequently the results at indices 2, 4 and 6 each appear in two
sections, the result at index 9 appears in none, and every other result in
exactly one. -/
theorem c2_amended_multiplicities :
    chunkProbeSections.map (fun s => s.map SearchResult.title)
      = [["0", "1", "2"], ["2", "3", "4"], ["4", "5", "6"], ["6", "7", "8"]] ∧
    ((List.range 10).map fun j =>
        (chunkProbeSections.map fun s => s.count (chunkProbeResult j)).sum)
      = [1, 1, 2, 1, 2, 1, 2, 1, 1, 0] := by
  decide

/-- C3 counterexample: on a run where every request errors, the claim
requires a sleep of 2^0 = 1 (then 2, then 4) time units after each failed
attempt; the code contains no sleep at all, so the observed delay list is
empty rather than the spec backoff delays 1, 2, 4. -/
theorem c3_counterexample :
    sleepDelays (search_tavily_run "key" "q" (fun _ => HttpOutcome.err)).2 = [] ∧
    spec_backoff_delays = [1, 2, 4] ∧
    sleepDelays (search_tavily_run "key" "q" (fun _ => HttpOutcome.err)).2
      ≠ spec_backoff_delays := by
  decide

/-- C3 (amended): the primary search has no retry loop and no backoff: on
every run it sleeps 0 time units in total (trivially at most 7) and makes
at most 3 (in fact at most 1) HTTP attempts. -/
theorem c3_amended_no_sleep (key query : String) (backend : Nat → HttpOutcome) :
    totalSleep (search_tavily_run key query backend).2 = 0 ∧
    totalSleep (search_tavily_run key query backend).2 ≤ 7 ∧
    httpAttempts (search_tavily_run key query backend).2 ≤ 3 := by
  by_cases hk : key = "" <;>
    simp [search_tavily_run, totalSleep, sleepDelays, httpAttempts, hk]

/-- C4: for every topic, `plan_research` returns a non-empty sequence of
exactly 4 strings (within the stated 4-5), each containing the topic
verbatim; as a Lean function of the topic alone it is pure, deterministic
and order-stable by construction. -/
theorem c4_plan_research_templates (topic : String) :
    plan_research topic ≠ [] ∧ (plan_research topic).length = 4 ∧
    ∀ s ∈ plan_research topic, ∃ pre post, s = pre ++ topic ++ post := by
  have hp : plan_research topic =
      [ "What is " ++ topic ++ "? Definition and fundamentals",
        "Latest developments and news about " ++ topic ++ " in 2024",
        "Key experts, companies, or research institutions working on " ++ topic,
        "Future implications and challenges of " ++ topic ] := rfl
  refine ⟨by simp [hp], by rw [hp]; rfl, ?_⟩
  intro s hs
  rw [hp] at hs
  simp only [List.mem_cons, List.not_mem_nil, or_false] at hs
  rcases hs with h | h | h | h <;> rw [h]
  · exact ⟨"What is ", "? Definition and fundamentals", rfl⟩
  · exact ⟨"Latest developments and news about ", " in 2024", rfl⟩
  · exact ⟨"Key experts, companies, or research institutions working on ", "",
      (String.append_empty _).symm⟩
  · exact ⟨"Future implications and challenges of ", "",
      (String.append_empty _).symm⟩

/-- C5: the sub-questions `main` consumes (searched, and passed to
`synthesize`) number exactly min(requested depth, number of planner
template questions), the planner producing 4 questions for every topic. -/
theorem c5_consumed_is_min (query : String) (depth : Nat) :
    (consumed_sub_questions query depth).length
      = min depth (plan_research query).length ∧
    (plan_research query).length = 4 := by
  exact ⟨List.length_take depth (plan_research query), rfl⟩

/-- Helper: on an empty result list every section of `synthesize` renders
its heading followed by the no-sources placeholder. -/
theorem renderSection_nil (cs idx : Nat) (question : String) :
    renderSection cs ([] : List SearchResult) idx question
      = sectionHeading idx question ++ noSourcesPlaceholder := by
  simp [renderSection, sectionRelated]

/-- C6: for every topic and non-empty sub-question list, `synthesize` on an
empty result list produces the report consisting of the header (around the
timestamp, with 0 sources), one section per sub-question each of which is
its heading followed by the literal no-sources placeholder, and the
methodology footer; in particular every section carries the placeholder. -/
theorem c6_empty_results_placeholder (now query : String)
    (sub_questions : List String) (h : sub_questions ≠ []) :
    synthesize now query sub_questions []
      = some (reportHeaderPre query ++ now ++ reportHeaderPost 0 0
          ++ String.join (sub_questions.enum.map fun iq =>
                sectionHeading iq.1 iq.2 ++ noSourcesPlaceholder)
          ++ methodologyFooter) ∧
    ∀ iq ∈ sub_questions.enum,
      renderSection (chunk_size 0 sub_questions.length) [] iq.1 iq.2
        = sectionHeading iq.1 iq.2 ++ noSourcesPlaceholder := by
  refine ⟨?_, fun iq _ => renderSection_nil _ _ _⟩
  cases sub_questions with
  | nil => exact absurd rfl h
  | cons q qs => simp [synthesize, renderSection_nil]

/-- C6 witness: the theorem instantiated at topic "t", the single
sub-question "a", timestamp "2024-01-01 00:00" and no results. -/
theorem c6_witness :
    (["a"] : List String) ≠ [] ∧
    (synthesize "2024-01-01 00:00" "t" ["a"] []
      = some (reportHeaderPre "t" ++ "2024-01-01 00:00" ++ reportHeaderPost 0 0
          ++ String.join ((["a"] : List String).enum.map fun iq =>
                sectionHeading iq.1 iq.2 ++ noSourcesPlaceholder)
          ++ methodologyFooter) ∧
     ∀ iq ∈ (["a"] : List String).enum,
       renderSection (chunk_size 0 (["a"] : List String).length) [] iq.1 iq.2
         = sectionHeading iq.1 iq.2 ++ noSourcesPlaceholder) :=
  ⟨by decide, c6_empty_results_placeholder "2024-01-01 00:00" "t" ["a"] (by decide)⟩

/-- C7 counterexample: `synthesize` is not total on all inputs: with an
empty sub-question list the chunk-size computation divides by zero
(Python `ZeroDivisionError`), modelled as `none`. -/
theorem c7_counterexample :
    synthesize "2024-01-01 00:00" "topic" [] [] = none := rfl

/-- C7 (amended): for every input whose sub-question list is non-empty,
`synthesize` is total: it always returns a report string (and, being a
plain function of its arguments and the timestamp, performs no I/O). -/
theorem c7_amended_total_when_nonempty (now query : String)
    (sub_questions : List String) (all_results : List SearchResult)
    (h : sub_questions ≠ []) :
    (synthesize now query sub_questions all_results).isSome = true := by
  cases sub_questions with
  | nil => exact absurd rfl h
  | cons q qs => simp [synthesize]

/-- C7 witness: the amended theorem instantiated at a concrete input. -/
theorem c7_witness :
    (["a"] : List String) ≠ [] ∧
    (synthesize "2024-01-01 00:00" "t" ["a"] []).isSome = true :=
  ⟨by decide, c7_amended_total_when_nonempty "2024-01-01 00:00" "t" ["a"] [] (by decide)⟩

/-- C8: `synthesize` is deterministic modulo the timestamp: for identical
(topic, sub-questions, results) and any two timestamps, either both calls
fail identically (empty sub-question list) or the two reports are identical
except for the embedded timestamp. -/
theorem c8_deterministic_modulo_timestamp (t1 t2 query : String)
    (sub_questions : List String) (all_results : List SearchResult) :
    (synthesize t1 query sub_questions all_results = none ∧
     synthesize t2 query sub_questions all_results = none) ∨
    ∃ pre post,
      synthesize t1 query sub_questions all_results = some (pre ++ t1 ++ post) ∧
      synthesize t2 query sub_questions all_results = some (pre ++ t2 ++ post) := by
  cases sub_questions with
  | nil => exact Or.inl ⟨rfl, rfl⟩
  | cons q qs =>
    refine Or.inr ⟨reportHeaderPre query,
      reportHeaderPost all_results.length
          ((all_results.filter fun r => decide ((0.8 : ℚ) < r.score.getD 0)).length)
        ++ String.join ((q :: qs).enum.map fun iq =>
            renderSection (chunk_size all_results.length (q :: qs).length)
              all_results iq.1 iq.2)
        ++ methodologyFooter, ?_, ?_⟩ <;>
      simp [synthesize, String.append_assoc]

/-- C9: with a missing (empty) API key, the run is blocked at the key gate:
the configuration error is surfaced, no search request is ever made, and no
report (not even a partial one) is produced. -/
theorem c9_missing_key_blocks_run (now key query : String)
    (research_breadth : Nat) (backend : Nat → HttpOutcome) (h : key = "") :
    run_main now key query research_breadth backend
      = { searchCalls := 0, report := none, configErrorShown := true } := by
  subst h
  rfl

/-- C9 witness: the theorem instantiated at the empty key. -/
theorem c9_witness :
    ("" : String) = "" ∧
    run_main "2024-01-01 00:00" "" "CRISPR" 3 (fun _ => HttpOutcome.err)
      = { searchCalls := 0, report := none, configErrorShown := true } :=
  ⟨rfl, c9_missing_key_blocks_run "2024-01-01 00:00" "" "CRISPR" 3
    (fun _ => HttpOutcome.err) rfl⟩

/-- C10: whenever the key is present and the parsed response carries a
non-empty AI answer, `search_tavily` prepends the "AI Synthesis" result
(score 1.0) in front of the normalized organic results, so the returned
list has one entry more than the organic result array: with `max_results`
organic results the caller receives `max_results + 1` entries. -/
theorem c10_ai_answer_prepended (key answer : String) (organic : List RawResult)
    (hk : key ≠ "") (ha : answer ≠ "") :
    search_tavily key (HttpOutcome.ok { answer := some answer, results := organic })
        = aiResult answer :: organic.map normalizeRaw ∧
    (search_tavily key
        (HttpOutcome.ok { answer := some answer, results := organic })).length
        = organic.length + 1 ∧
    (aiResult answer).title = "AI Synthesis" ∧
    (aiResult answer).score = some 1 := by
  have h1 : search_tavily key
      (HttpOutcome.ok { answer := some answer, results := organic })
      = aiResult answer :: organic.map normalizeRaw := by
    simp [search_tavily, hk, normalizeResponse, answerTruthy, ha]
  refine ⟨h1, ?_, rfl, rfl⟩
  rw [h1]
  simp

/-- C10 witness: the theorem instantiated at a concrete key, answer and a
single organic result. -/
theorem c10_witness :
    ("k" : String) ≠ "" ∧ ("an answer" : String) ≠ "" ∧
    (search_tavily "k" (HttpOutcome.ok { answer := some "an answer", results := [answerProbeRaw] })
        = aiResult "an answer" :: [answerProbeRaw].map normalizeRaw ∧
     (search_tavily "k" (HttpOutcome.ok { answer := some "an answer", results := [answerProbeRaw] })).length
        = [answerProbeRaw].length + 1 ∧
     (aiResult "an answer").title = "AI Synthesis" ∧
     (aiResult "an answer").score = some 1) :=
  ⟨by decide, by decide,
   c10_ai_answer_prepended "k" "an answer" [answerProbeRaw] (by decide) (by decide)⟩
